import Mathlib

/-!
Shallow embedding of `src/main.py`, a small FastAPI backend with a
contact-form endpoint (`POST /contact`), a diagnostic endpoint
(`GET /test`) and two static greetings.  External effects (the document
store's `create_document`, the SMTP transaction, `os.getenv`) are modelled
as explicit inputs; the handlers become pure functions that return both the
HTTP response and a trace of the side effects they performed.
-/

namespace ContactBackend

/-- Python truthiness of an optional string: `None` and `""` are falsy,
every other string is truthy. -/
def truthy : Option String → Bool
  | none => false
  | some s => !s.isEmpty

/-- Python `s or d` for a string `s`: yields `d` when `s` is empty. -/
def pyOrStr (s d : String) : String :=
  if s.isEmpty then d else s

/-- Python `x or d` where `x` is an optional string (`None` and `""` both
fall through to the default `d`). -/
def pyOrOpt (x : Option String) (d : String) : String :=
  match x with
  | none => d
  | some s => pyOrStr s d

/-- Python slicing `s[:k]` on a string: the first `k` characters. -/
def pySlice (k : Nat) (s : String) : String :=
  String.mk (s.toList.take k)

/-- Numeric value of a list of decimal digits. -/
def digitsToNat (cs : List Char) : Nat :=
  cs.foldl (fun a c => a * 10 + (c.toNat - 48)) 0

/-- Strip leading and trailing whitespace from a character list. -/
def stripWs (cs : List Char) : List Char :=
  ((cs.dropWhile Char.isWhitespace).reverse.dropWhile Char.isWhitespace).reverse

/-- Model of Python `int(s)` on decimal string literals: surrounding
whitespace is stripped, an optional sign is allowed, and the remainder must
be a nonempty run of decimal digits (digit-group underscores are not
modelled).  `none` models the `ValueError` that `int` raises otherwise. -/
def pyInt? (s : String) : Option Int :=
  let cs := stripWs s.toList
  let signed : Int × List Char :=
    match cs with
    | '+' :: rest => (1, rest)
    | '-' :: rest => (-1, rest)
    | _ => (1, cs)
  if signed.2 ≠ [] ∧ signed.2.all Char.isDigit then
    some (signed.1 * (digitsToNat signed.2 : Nat))
  else none

/-- Modelled from the spec: `email` must conform to standard email-address
syntax.  The validation itself is performed by the external `EmailStr` /
`email-validator` library, whose code is not part of this repository; this
model accepts strings of the shape `local@domain` with a nonempty local
part, a nonempty domain containing a dot (not at either end), and no spaces
or further `@` signs. -/
def isValidEmail (s : String) : Bool :=
  let cs := s.toList
  let lp := cs.takeWhile (fun c => c ≠ '@')
  let rest := cs.dropWhile (fun c => c ≠ '@')
  match rest with
  | '@' :: dom =>
      !lp.isEmpty && lp.all (fun c => c ≠ ' ') &&
      !dom.isEmpty && dom.all (fun c => c ≠ '@' && c ≠ ' ') &&
      dom.contains '.' && dom.head? ≠ some '.' && dom.getLast? ≠ some '.'
  | _ => false

/-- The raw JSON body of a `POST /contact` request, before pydantic
validation: each field is either absent or a string.  (`subject` is
declared `Optional[str] = None`, so absence is legal for it alone.) -/
structure RawBody where
  name : Option String
  email : Option String
  subject : Option String
  message : Option String

/-- `class ContactIn(BaseModel)`: the validated payload.  `name` and
`message` are plain `str` fields (any string, including the empty string,
passes), `email` is `EmailStr`, `subject` is `Optional[str] = None`. -/
structure ContactIn where
  name : String
  email : String
  subject : Option String
  message : String

/-- Pydantic validation of the request body against `ContactIn`: the three
required fields must be present and `email` must be a syntactically valid
email address.  `none` models FastAPI's 422 validation-error response.
No emptiness check exists for `name` or `message`. -/
def validateContactIn (b : RawBody) : Option ContactIn :=
  match b.name, b.email, b.message with
  | some n, some e, some m =>
      if isValidEmail e then some ⟨n, e, b.subject, m⟩ else none
  | _, _, _ => none

/-- The document handed to `create_document("contactmessage", doc)`
(lines 114–119 of `main.py`). -/
structure ContactDocument where
  name : String
  email : String
  subject : Option String
  message : String
  deriving DecidableEq

/-- The plain-text email message assembled by `send_email_via_smtp`
(lines 96–101 of `main.py`). -/
structure EmailMsg where
  subject : String
  fromName : String
  fromAddr : String
  toAddr : String
  body : String
  deriving DecidableEq

/-- Outcome of one call to `send_email_via_smtp`, recording both the
Python-level result (return value or raised exception) and whether a
network operation was attempted. -/
inductive SendOutcome where
  /-- `int(os.getenv("SMTP_PORT", "587"))` raised `ValueError`; no network
  operation was attempted. -/
  | portError (e : String)
  /-- The configuration gate on line 92 fired: the function returned
  `False` without attempting any network operation. -/
  | notConfigured
  /-- The SMTP transaction (lines 103–106) completed and the function
  returned `True`, having transmitted `m`. -/
  | sent (m : EmailMsg)
  /-- The SMTP transaction was attempted and raised. -/
  | netError (e : String)
  deriving DecidableEq

/-- `True` exactly when the outcome models a raised Python exception. -/
def SendOutcome.raises : SendOutcome → Bool
  | .portError _ => true
  | .netError _ => true
  | _ => false

/-- `True` exactly when a network operation was attempted. -/
def SendOutcome.networkAttempted : SendOutcome → Bool
  | .sent _ => true
  | .netError _ => true
  | _ => false

/-- `True` exactly when the function returned `True` (mail was sent). -/
def SendOutcome.success : SendOutcome → Bool
  | .sent _ => true
  | _ => false

/-- The environment of one mail-send attempt: the process environment
(`os.getenv`) and the outcome of the SMTP transaction were it attempted
(`none` = the `with smtplib.SMTP(...)` block completes, `some e` = it
raises `e`). -/
structure MailWorld where
  env : String → Option String
  smtpError : Option String

/-- `os.getenv("SMTP_TO", user)` where `user = os.getenv("SMTP_USER")`:
the recipient defaults to the user when `SMTP_TO` is unset. -/
def resolvedRecipient (env : String → Option String) : Option String :=
  match env "SMTP_TO" with
  | some t => some t
  | none => env "SMTP_USER"

/-- `def send_email_via_smtp(name, email, subject, message) -> bool`
(lines 85–107 of `main.py`).  Reads `SMTP_HOST`, `SMTP_PORT` (default
`"587"`, parsed with `int` before the gate), `SMTP_USER`, `SMTP_PASS` and
`SMTP_TO` (defaulting to the user); returns `False` when host, user,
password or resolved recipient is missing or empty; otherwise builds the
message with `subject or "New Portfolio Contact Message"` and runs the
SMTP transaction, returning `True` on completion. -/
def send_email_via_smtp (w : MailWorld) (name email subject message : String) :
    SendOutcome :=
  let host := w.env "SMTP_HOST"
  match pyInt? ((w.env "SMTP_PORT").getD "587") with
  | none => .portError "invalid literal for int() with base 10"
  | some _port =>
    let user := w.env "SMTP_USER"
    let password := w.env "SMTP_PASS"
    let to_email : Option String := resolvedRecipient w.env
    if !truthy host || !truthy user || !truthy password || !truthy to_email then
      .notConfigured
    else
      let full_subject := pyOrStr subject "New Portfolio Contact Message"
      let body := "Name: " ++ name ++ "\nEmail: " ++ email ++
        "\n\nMessage:\n" ++ message
      let msg : EmailMsg :=
        ⟨full_subject, name, (user.getD ""), (to_email.getD ""), body⟩
      match w.smtpError with
      | some e => .netError e
      | none => .sent msg

/-- The JSON body `{"ok": ..., "email_sent": ...}` returned by
`submit_contact` on line 132. -/
structure ContactResponse where
  ok : Bool
  email_sent : Bool
  deriving DecidableEq

/-- An HTTP response of the `/contact` endpoint: the framework's 422
validation error, an `HTTPException` with a status code and detail string,
or a 200 response with a `ContactResponse` body. -/
inductive HttpResponse where
  | validationError
  | httpError (status : Nat) (detail : String)
  | ok (body : ContactResponse)
  deriving DecidableEq

/-- The arguments of one call to `send_email_via_smtp`, in order. -/
structure SendArgs where
  name : String
  email : String
  subject : String
  message : String
  deriving DecidableEq

/-- Side-effect trace of one `/contact` request: whether (and with which
document) `create_document` was invoked, whether the store acknowledged
the write, and whether (and with which arguments and outcome)
`send_email_via_smtp` was invoked. -/
structure Trace where
  createCalled : Option ContactDocument
  persisted : Bool
  sendCalled : Option SendArgs
  sendOutcome : Option SendOutcome

/-- The external world of one `/contact` request: the outcome of
`create_document("contactmessage", doc)` (`.ok` = acknowledged,
`.error e` = it raised `e`) and the mail environment. -/
structure ReqWorld where
  createResult : Except String Unit
  mail : MailWorld

/-- `async def submit_contact(payload)` (lines 110–132 of `main.py`) on an
already-validated payload: builds the document, awaits `create_document`;
on a store exception raises `HTTPException(500, "Database error: " +
str(e)[:120])`; otherwise calls `send_email_via_smtp` with
`payload.subject or "Portfolio Contact"` as subject, mapping any exception
to `sent = False`, and returns `{"ok": True, "email_sent": sent}`. -/
def submit_contact (w : ReqWorld) (payload : ContactIn) :
    HttpResponse × Trace :=
  let doc : ContactDocument :=
    ⟨payload.name, payload.email, payload.subject, payload.message⟩
  match w.createResult with
  | .error e =>
      (.httpError 500 ("Database error: " ++ pySlice 120 e),
       ⟨some doc, false, none, none⟩)
  | .ok _ =>
      let outcome :=
        send_email_via_smtp w.mail payload.name payload.email
          (pyOrOpt payload.subject "Portfolio Contact") payload.message
      let sent := outcome.success
      (.ok ⟨true, sent⟩,
       ⟨some doc, true,
        some ⟨payload.name, payload.email,
          pyOrOpt payload.subject "Portfolio Contact", payload.message⟩,
        some outcome⟩)

/-- The full `POST /contact` endpoint: pydantic validation of the raw body
against `ContactIn`, then `submit_contact`.  A validation failure yields
the 422 response with no side effect. -/
def handle_contact (w : ReqWorld) (b : RawBody) : HttpResponse × Trace :=
  match validateContactIn b with
  | none => (.validationError, ⟨none, false, none, none⟩)
  | some payload => submit_contact w payload

/-- The module-level `db` handle of the external `database` module as seen
by `/test`: whether it has a `name` attribute and the outcome of
`db.list_collection_names()` (`.error e` = it raises `e`). -/
structure DbHandle where
  name : Option String
  listCollections : Except String (List String)

/-- Outcome of `from database import db` inside `/test`'s `try` block. -/
inductive DbImport where
  /-- The import raised `ImportError`. -/
  | importError
  /-- The import raised some other exception `e`. -/
  | otherError (e : String)
  /-- The import succeeded; `db` is either `None` or a handle. -/
  | ok (db : Option DbHandle)

/-- The external world of one `GET /test` request. -/
structure TestWorld where
  dbImport : DbImport
  env : String → Option String

/-- The response body of `GET /test`: the six keys of the `response` dict
(lines 37–44 of `main.py`), always all present.  `database_url` and
`database_name` start as `None` but are unconditionally overwritten with
strings on lines 72–73 before returning, so they are strings here. -/
structure TestResponse where
  backend : String
  database : String
  database_url : String
  database_name : String
  connection_status : String
  collections : List String

/-- `def test_database()` (lines 34–75 of `main.py`).  The `try`/`except`
structure is mirrored by the match on the import and listing outcomes:
`ImportError` and any other exception are caught and rendered into the
`database` field; an exception from `list_collection_names` is caught by
the inner handler.  The result type is `Except String TestResponse` so
that a raised exception could be expressed — the theorem for this endpoint
shows it never is. -/
def test_database (w : TestWorld) : Except String TestResponse :=
  let parts : String × String × List String :=
    match w.dbImport with
    | .importError =>
        ("❌ Database module not found (run enable-database first)",
         "Not Connected", [])
    | .otherError e =>
        ("❌ Error: " ++ pySlice 50 e, "Not Connected", [])
    | .ok none =>
        ("⚠️  Available but not initialized", "Not Connected", [])
    | .ok (some db) =>
        match db.listCollections with
        | .ok cols => ("✅ Connected & Working", "Connected", cols.take 10)
        | .error e =>
            ("⚠️  Connected but Error: " ++ pySlice 50 e, "Connected", [])
  Except.ok
    ⟨"✅ Running", parts.1,
     if truthy (w.env "DATABASE_URL") then "✅ Set" else "❌ Not Set",
     if truthy (w.env "DATABASE_NAME") then "✅ Set" else "❌ Not Set",
     parts.2.1, parts.2.2⟩

/-! Concrete worlds and payloads used as witnesses and counterexamples. -/

/-- An empty process environment: no `SMTP_*` variable is set. -/
def emptyEnv : String → Option String := fun _ => none

/-- An environment where `SMTP_HOST` is missing but `SMTP_PORT` is set to
a non-numeric string. -/
def badPortEnv : String → Option String := fun k =>
  if k = "SMTP_PORT" then some "x" else none

/-- A fully configured SMTP environment (`SMTP_TO` unset, defaulting to
the user; `SMTP_PORT` unset, defaulting to `"587"`). -/
def fullEnv : String → Option String := fun k =>
  if k = "SMTP_HOST" then some "smtp.example.com"
  else if k = "SMTP_USER" then some "user@example.com"
  else if k = "SMTP_PASS" then some "pw"
  else none

/-- Store acknowledges the write; mail unconfigured. -/
def okWorld : ReqWorld := ⟨Except.ok (), ⟨emptyEnv, none⟩⟩

/-- Store acknowledges the write; mail fully configured and the SMTP
transaction succeeds. -/
def okWorldFull : ReqWorld := ⟨Except.ok (), ⟨fullEnv, none⟩⟩

/-- The store's `create_document` raises `"boom"`. -/
def failWorld : ReqWorld := ⟨Except.error "boom", ⟨emptyEnv, none⟩⟩

/-- A validated payload with an absent subject. -/
def adaPayload : ContactIn := ⟨"Ada", "ada@example.com", none, "Hello"⟩

/-- A validated payload whose subject is present but empty. -/
def emptySubjectAda : ContactIn := ⟨"Ada", "ada@example.com", some "", "Hello"⟩

/-- A raw request body with all fields valid. -/
def adaBody : RawBody := ⟨some "Ada", some "ada@example.com", none, some "Hello"⟩

/-- A raw request body whose `name` is the empty string and whose other
fields are valid. -/
def emptyNameBody : RawBody := ⟨some "", some "ada@example.com", none, some "Hello"⟩

/-- A raw request body whose `email` is not a valid address. -/
def badEmailBody : RawBody := ⟨some "Ada", some "not-an-email", none, some "Hello"⟩

/-! ## Theorems for the claims -/

/-- Helper: a failed validation yields the 422 response and no side
effect. -/
theorem handle_contact_of_invalid (w : ReqWorld) (b : RawBody)
    (hv : validateContactIn b = none) :
    handle_contact w b = (.validationError, ⟨none, false, none, none⟩) := by
  unfold handle_contact
  rw [hv]

/-- Helper: a successful validation hands the payload to `submit_contact`. -/
theorem handle_contact_of_valid (w : ReqWorld) (b : RawBody) (p : ContactIn)
    (hv : validateContactIn b = some p) :
    handle_contact w b = submit_contact w p := by
  unfold handle_contact
  rw [hv]

/-- Helper: the shape of `submit_contact` when the store raises. -/
theorem submit_contact_of_error (w : ReqWorld) (p : ContactIn) (e : String)
    (h : w.createResult = Except.error e) :
    submit_contact w p =
      (.httpError 500 ("Database error: " ++ pySlice 120 e),
       ⟨some ⟨p.name, p.email, p.subject, p.message⟩, false, none, none⟩) := by
  unfold submit_contact
  rw [h]

/-- Helper: the shape of `submit_contact` when the store acknowledges. -/
theorem submit_contact_of_ok (w : ReqWorld) (p : ContactIn) (u : Unit)
    (h : w.createResult = Except.ok u) :
    submit_contact w p =
      (.ok ⟨true, (send_email_via_smtp w.mail p.name p.email
          (pyOrOpt p.subject "Portfolio Contact") p.message).success⟩,
       ⟨some ⟨p.name, p.email, p.subject, p.message⟩, true,
        some ⟨p.name, p.email, pyOrOpt p.subject "Portfolio Contact",
          p.message⟩,
        some (send_email_via_smtp w.mail p.name p.email
          (pyOrOpt p.subject "Portfolio Contact") p.message)⟩) := by
  unfold submit_contact
  rw [h]

/-- C1 (counterexample): a request whose `name` is the empty string — with
a valid email and a nonempty message — is NOT rejected by validation:
`ContactIn` declares `name : str` with no emptiness constraint, so the
request reaches the store (`create_document` is invoked) and returns 200,
contradicting the claim that an empty `name` fails with a validation
error before any side effect. -/
theorem contact_empty_name_not_rejected :
    (handle_contact okWorld emptyNameBody).1 = HttpResponse.ok ⟨true, false⟩ ∧
    (handle_contact okWorld emptyNameBody).2.createCalled =
      some ⟨"", "ada@example.com", none, "Hello"⟩ := by
  constructor <;> rfl

/-- C1 (amended): a request with a missing required field or a
syntactically invalid `email` fails with a validation-error status before
any side effect — neither `create_document` nor `send_email_via_smtp` is
invoked.  (Empty `name` and empty `message` are NOT rejected: they are
plain `str` fields.) -/
theorem contact_validation_before_side_effects (w : ReqWorld) (b : RawBody)
    (h : b.name = none ∨ b.email = none ∨ b.message = none ∨
      ∃ e, b.email = some e ∧ isValidEmail e = false) :
    (handle_contact w b).1 = HttpResponse.validationError ∧
    (handle_contact w b).2.createCalled = none ∧
    (handle_contact w b).2.sendCalled = none := by
  have hv : validateContactIn b = none := by
    rcases h with h | h | h | ⟨e, he, hbad⟩ <;>
      cases hn : b.name <;> cases hem : b.email <;> cases hm : b.message <;>
        simp_all [validateContactIn]
  rw [handle_contact_of_invalid w b hv]
  exact ⟨rfl, rfl, rfl⟩

/-- Witness for C1's amended theorem at a concrete invalid email. -/
theorem contact_validation_before_side_effects_witness :
    isValidEmail "not-an-email" = false ∧
    (handle_contact okWorld badEmailBody).1 = HttpResponse.validationError ∧
    (handle_contact okWorld badEmailBody).2.createCalled = none ∧
    (handle_contact okWorld badEmailBody).2.sendCalled = none :=
  ⟨rfl, contact_validation_before_side_effects okWorld badEmailBody
    (Or.inr (Or.inr (Or.inr ⟨"not-an-email", rfl, rfl⟩)))⟩

/-- C2: when `create_document` raises `e`, the handler raises
`HTTPException(500, "Database error: " + str(e)[:120])` — the error text
truncated to at most 120 characters behind a fixed prefix — and the mail
relay is never invoked for that request. -/
theorem contact_store_error_500 (w : ReqWorld) (p : ContactIn) (e : String)
    (h : w.createResult = Except.error e) :
    (submit_contact w p).1 =
      HttpResponse.httpError 500 ("Database error: " ++ pySlice 120 e) ∧
    (pySlice 120 e).length ≤ 120 ∧
    (submit_contact w p).2.sendCalled = none ∧
    (submit_contact w p).2.sendOutcome = none := by
  unfold submit_contact
  rw [h]
  refine ⟨rfl, ?_, rfl, rfl⟩
  show (e.toList.take 120).length ≤ 120
  simp [List.length_take]

/-- Witness for C2 at a concrete store error. -/
theorem contact_store_error_500_witness :
    failWorld.createResult = Except.error "boom" ∧
    ((submit_contact failWorld adaPayload).1 =
      HttpResponse.httpError 500 ("Database error: " ++ pySlice 120 "boom") ∧
     (pySlice 120 "boom").length ≤ 120 ∧
     (submit_contact failWorld adaPayload).2.sendCalled = none ∧
     (submit_contact failWorld adaPayload).2.sendOutcome = none) :=
  ⟨rfl, contact_store_error_500 failWorld adaPayload "boom" rfl⟩

/-- C3: once persistence succeeded, any non-success outcome of the mail
step (unconfigured, raised exception, whatever) leaves the response at
exactly `{ok: true, email_sent: false}` — the request does not fail. -/
theorem contact_mail_failure_swallowed (w : ReqWorld) (p : ContactIn)
    (hc : w.createResult = Except.ok ())
    (hs : (send_email_via_smtp w.mail p.name p.email
        (pyOrOpt p.subject "Portfolio Contact") p.message).success = false) :
    (submit_contact w p).1 = HttpResponse.ok ⟨true, false⟩ := by
  unfold submit_contact
  rw [hc]
  simp only []
  rw [hs]

/-- Witness for C3: store acknowledges, mail unconfigured. -/
theorem contact_mail_failure_swallowed_witness :
    okWorld.createResult = Except.ok () ∧
    (send_email_via_smtp okWorld.mail adaPayload.name adaPayload.email
      (pyOrOpt adaPayload.subject "Portfolio Contact") adaPayload.message).success
      = false ∧
    (submit_contact okWorld adaPayload).1 = HttpResponse.ok ⟨true, false⟩ :=
  ⟨rfl, rfl, contact_mail_failure_swallowed okWorld adaPayload rfl rfl⟩

/-- C4: when persistence succeeds and the mail send completes (the helper
returns `True`), the response is exactly `{ok: true, email_sent: true}`. -/
theorem contact_both_succeed (w : ReqWorld) (p : ContactIn) (m : EmailMsg)
    (hc : w.createResult = Except.ok ())
    (hs : send_email_via_smtp w.mail p.name p.email
        (pyOrOpt p.subject "Portfolio Contact") p.message = .sent m) :
    (submit_contact w p).1 = HttpResponse.ok ⟨true, true⟩ := by
  unfold submit_contact
  rw [hc]
  simp only []
  rw [hs]
  rfl

/-- Witness for C4: fully configured SMTP environment. -/
theorem contact_both_succeed_witness :
    okWorldFull.createResult = Except.ok () ∧
    (submit_contact okWorldFull adaPayload).1 = HttpResponse.ok ⟨true, true⟩ :=
  ⟨rfl, contact_both_succeed okWorldFull adaPayload
    ⟨"Portfolio Contact", "Ada", "user@example.com", "user@example.com",
     "Name: Ada\nEmail: ada@example.com\n\nMessage:\nHello"⟩ rfl rfl⟩

/-- C5: in the sequential handler, the store write always precedes the
notification attempt — whenever `send_email_via_smtp` was invoked,
`create_document` had already been invoked and had acknowledged the write
(`persisted = true`).  Persistence success is thus a precondition for any
mail-relay invocation. -/
theorem contact_persist_precedes_notify (w : ReqWorld) (b : RawBody)
    (a : SendArgs) (h : (handle_contact w b).2.sendCalled = some a) :
    (handle_contact w b).2.createCalled ≠ none ∧
    (handle_contact w b).2.persisted = true := by
  cases hv : validateContactIn b with
  | none => rw [handle_contact_of_invalid w b hv] at h; simp at h
  | some p =>
    rw [handle_contact_of_valid w b p hv] at h ⊢
    cases hc : w.createResult with
    | error e => rw [submit_contact_of_error w p e hc] at h; simp at h
    | ok u => rw [submit_contact_of_ok w p u hc]; exact ⟨by simp, rfl⟩

/-- Witness for C5 at a concrete request where the mail step ran. -/
theorem contact_persist_precedes_notify_witness :
    (handle_contact okWorld adaBody).2.sendCalled =
      some ⟨"Ada", "ada@example.com", "Portfolio Contact", "Hello"⟩ ∧
    ((handle_contact okWorld adaBody).2.createCalled ≠ none ∧
     (handle_contact okWorld adaBody).2.persisted = true) :=
  ⟨rfl, contact_persist_precedes_notify okWorld adaBody
    ⟨"Ada", "ada@example.com", "Portfolio Contact", "Hello"⟩ rfl⟩

/-- C6 (counterexample): with `SMTP_HOST` (and user/password) missing but
`SMTP_PORT` set to the non-numeric string `"x"`,
`int(os.getenv("SMTP_PORT", "587"))` runs BEFORE the configuration gate
and raises `ValueError` — the call raises instead of returning the
`False` "not configured" outcome, contradicting "regardless of the values
of the other environment variables (including SMTP_PORT)". -/
theorem mail_bad_port_raises :
    send_email_via_smtp ⟨badPortEnv, none⟩ "Ada" "ada@example.com"
      "Portfolio Contact" "Hello" =
      SendOutcome.portError "invalid literal for int() with base 10" ∧
    (send_email_via_smtp ⟨badPortEnv, none⟩ "Ada" "ada@example.com"
      "Portfolio Contact" "Hello").raises = true := by
  constructor <;> rfl

/-- C6 (amended): provided the `SMTP_PORT` value (default `"587"`) parses
as an integer, a missing or empty host, user, password, or resolved
recipient (`SMTP_TO` defaulting to `SMTP_USER`) makes the helper return
the `False` "not configured" outcome, with no network attempt and no
exception, regardless of the other environment variables. -/
theorem mail_gate_not_configured (w : MailWorld)
    (name email subject message : String) (p : Int)
    (hp : pyInt? ((w.env "SMTP_PORT").getD "587") = some p)
    (h : truthy (w.env "SMTP_HOST") = false ∨
         truthy (w.env "SMTP_USER") = false ∨
         truthy (w.env "SMTP_PASS") = false ∨
         truthy (resolvedRecipient w.env) = false) :
    send_email_via_smtp w name email subject message =
      SendOutcome.notConfigured ∧
    (send_email_via_smtp w name email subject message).networkAttempted
      = false ∧
    (send_email_via_smtp w name email subject message).raises = false := by
  have hmain : send_email_via_smtp w name email subject message =
      SendOutcome.notConfigured := by
    unfold send_email_via_smtp
    rw [hp]
    rcases h with h | h | h | h <;> simp [h]
  exact ⟨hmain, by rw [hmain]; rfl, by rw [hmain]; rfl⟩

/-- Witness for C6's amended theorem: the empty environment. -/
theorem mail_gate_not_configured_witness :
    pyInt? ((emptyEnv "SMTP_PORT").getD "587") = some 587 ∧
    truthy (emptyEnv "SMTP_HOST") = false ∧
    (send_email_via_smtp ⟨emptyEnv, none⟩ "Ada" "ada@example.com"
        "Portfolio Contact" "Hello" = SendOutcome.notConfigured ∧
     (send_email_via_smtp ⟨emptyEnv, none⟩ "Ada" "ada@example.com"
        "Portfolio Contact" "Hello").networkAttempted = false ∧
     (send_email_via_smtp ⟨emptyEnv, none⟩ "Ada" "ada@example.com"
        "Portfolio Contact" "Hello").raises = false) :=
  ⟨rfl, rfl, mail_gate_not_configured ⟨emptyEnv, none⟩ "Ada" "ada@example.com"
    "Portfolio Contact" "Hello" 587 rfl (Or.inl rfl)⟩

/-- C7: the document handed to `create_document` carries the payload's
`subject` verbatim (nullable); when `subject` is absent the stored field
is `null` and the default text `"Portfolio Contact"` is substituted only
into the arguments of the mail send, never into the persisted record. -/
theorem contact_subject_persisted_verbatim (w : ReqWorld) (p : ContactIn)
    (d : ContactDocument)
    (h : (submit_contact w p).2.createCalled = some d) :
    d.subject = p.subject ∧
    (p.subject = none →
      (submit_contact w p).2.sendCalled = none ∨
      (submit_contact w p).2.sendCalled =
        some ⟨p.name, p.email, "Portfolio Contact", p.message⟩) := by
  cases hc : w.createResult with
  | error e =>
    rw [submit_contact_of_error w p e hc] at h ⊢
    simp at h
    exact ⟨by rw [← h], fun _ => Or.inl rfl⟩
  | ok u =>
    rw [submit_contact_of_ok w p u hc] at h ⊢
    simp at h
    refine ⟨by rw [← h], fun hn => Or.inr ?_⟩
    simp [hn, pyOrOpt]

/-- Witness for C7 at a concrete absent-subject submission. -/
theorem contact_subject_persisted_verbatim_witness :
    (submit_contact okWorld adaPayload).2.createCalled =
      some ⟨"Ada", "ada@example.com", none, "Hello"⟩ ∧
    ((⟨"Ada", "ada@example.com", none, "Hello"⟩ : ContactDocument).subject =
      adaPayload.subject ∧
     (adaPayload.subject = none →
      (submit_contact okWorld adaPayload).2.sendCalled = none ∨
      (submit_contact okWorld adaPayload).2.sendCalled =
        some ⟨"Ada", "ada@example.com", "Portfolio Contact", "Hello"⟩)) :=
  ⟨rfl, contact_subject_persisted_verbatim okWorld adaPayload
    ⟨"Ada", "ada@example.com", none, "Hello"⟩ rfl⟩

/-- C8: `GET /test` never raises and never returns a non-200 status —
for every import outcome, `db` state, listing outcome and environment,
the handler produces an `Except.ok` response whose envelope is the fixed
six-field `TestResponse` record (shape constant by construction) with
`backend` always `"✅ Running"`. -/
theorem test_database_never_errors (w : TestWorld) :
    ∃ r : TestResponse, test_database w = Except.ok r ∧
      r.backend = "✅ Running" :=
  ⟨_, rfl, rfl⟩

/-- C9: every 200 response body of `/contact` has `ok = true` — the
handler's only `return` is `{"ok": True, ...}` — and a returned body
implies the store acknowledged the write (failures are signalled only by
raising). -/
theorem contact_ok_always_true (w : ReqWorld) (b : RawBody)
    (r : ContactResponse) (h : (handle_contact w b).1 = HttpResponse.ok r) :
    r.ok = true ∧ (handle_contact w b).2.persisted = true := by
  cases hv : validateContactIn b with
  | none => rw [handle_contact_of_invalid w b hv] at h; simp at h
  | some p =>
    rw [handle_contact_of_valid w b p hv] at h ⊢
    cases hc : w.createResult with
    | error e => rw [submit_contact_of_error w p e hc] at h; simp at h
    | ok u =>
      rw [submit_contact_of_ok w p u hc] at h ⊢
      simp at h
      exact ⟨by rw [← h], rfl⟩

/-- Witness for C9 at a concrete successful request. -/
theorem contact_ok_always_true_witness :
    (handle_contact okWorld adaBody).1 = HttpResponse.ok ⟨true, false⟩ ∧
    ((⟨true, false⟩ : ContactResponse).ok = true ∧
     (handle_contact okWorld adaBody).2.persisted = true) :=
  ⟨rfl, contact_ok_always_true okWorld adaBody ⟨true, false⟩ rfl⟩

/-- Helper: when the mail helper reports `sent m`, the transmitted subject
is `subject or "New Portfolio Contact Message"`. -/
theorem send_sent_subject (w : MailWorld) (name email subject message : String)
    (m : EmailMsg)
    (h : send_email_via_smtp w name email subject message = .sent m) :
    m.subject = pyOrStr subject "New Portfolio Contact Message" := by
  unfold send_email_via_smtp at h
  cases hp : pyInt? ((w.env "SMTP_PORT").getD "587") with
  | none => rw [hp] at h; simp at h
  | some q =>
    rw [hp] at h
    simp only [] at h
    split at h
    · simp at h
    · cases hse : w.smtpError with
      | some e => rw [hse] at h; simp at h
      | none =>
        rw [hse] at h
        simp at h
        rw [← h]

/-- C10: a present-but-empty `subject` is persisted verbatim as the empty
string, while the notification-side default kicks in: the mail helper is
called with subject `"Portfolio Contact"` (Python `payload.subject or
"Portfolio Contact"` treats `""` as falsy) and any actually transmitted
message carries that default subject. -/
theorem contact_empty_string_subject (w : ReqWorld) (p : ContactIn)
    (hs : p.subject = some "") (hc : w.createResult = Except.ok ()) :
    (submit_contact w p).2.createCalled =
      some ⟨p.name, p.email, some "", p.message⟩ ∧
    (submit_contact w p).2.sendCalled =
      some ⟨p.name, p.email, "Portfolio Contact", p.message⟩ ∧
    ∀ mm : EmailMsg,
      (submit_contact w p).2.sendOutcome = some (.sent mm) →
      mm.subject = "Portfolio Contact" := by
  unfold submit_contact
  rw [hc, hs]
  refine ⟨rfl, rfl, ?_⟩
  intro mm hmm
  simp at hmm
  have := send_sent_subject w.mail p.name p.email
    (pyOrOpt (some "") "Portfolio Contact") p.message mm hmm
  rw [this]
  rfl

/-- Witness for C10: empty-string subject, fully configured mail. -/
theorem contact_empty_string_subject_witness :
    emptySubjectAda.subject = some "" ∧
    okWorldFull.createResult = Except.ok () ∧
    ((submit_contact okWorldFull emptySubjectAda).2.createCalled =
      some ⟨"Ada", "ada@example.com", some "", "Hello"⟩ ∧
     (submit_contact okWorldFull emptySubjectAda).2.sendCalled =
      some ⟨"Ada", "ada@example.com", "Portfolio Contact", "Hello"⟩) :=
  ⟨rfl, rfl,
    (contact_empty_string_subject okWorldFull emptySubjectAda rfl rfl).1,
    (contact_empty_string_subject okWorldFull emptySubjectAda rfl rfl).2.1⟩

end ContactBackend
